import Mathlib

/-!
Verification of the Match Outcome & Standings display logic of the
CollegeTennisAnalytics repository.

The repository's sources under verification are the frontend pages
(`MatchDetailsPage.js`, `MatchesPage.js`, `TeamsDetailsPage.js`,
`services/api.js`) together with the legacy matches page.  Score strings
are embedded as `List Char`; JavaScript `String.prototype.split` on a
single-character separator is embedded as `List.splitOn`.  The backend
engine (Score Parser, Slot Outcome Resolver, Match Outcome Resolver) is
not part of the sources; where a claim depends on it, the corresponding
definition is modelled from the specification and marked as such.
-/

/-- A lineup entry as served by the lineup endpoint and consumed by
`MatchDetailsPage.js` / the legacy matches page: discipline, slot
position, the two won flags and the raw score strings. -/
structure LineupEntry where
  id : Nat
  match_type : List Char
  position : Nat
  side1_won : Bool
  side2_won : Bool
  side1_score : List Char
  side2_score : List Char
deriving DecidableEq, Repr

/-- The derived aggregate served by the score endpoint
(`MatchScore`): point totals and the two mutually exclusive won
flags. -/
structure MatchScore where
  home_team_score : Nat
  away_team_score : Nat
  home_team_won : Bool
  away_team_won : Bool
deriving DecidableEq, Repr

/-- A match row as served by the matches endpoints: identity of the two
teams plus the flags the pages branch on. -/
structure DualMatch where
  id : Nat
  home_team_id : List Char
  away_team_id : List Char
  completed : Bool
  is_conference_match : Bool
deriving DecidableEq, Repr

/-- One parsed set: games won by each side and the optional tiebreak
points of each side (spec section 3, `ParsedSet`). -/
structure ParsedSet where
  games1 : Nat
  games2 : Nat
  tb1 : Option Nat
  tb2 : Option Nat
deriving DecidableEq, Repr

/-! ### Decimal digit strings

JavaScript template literals render numbers in decimal; `natDigits` is
that rendering, and `digitsToNat`/`parseNat` read a digit string back. -/

/-- Fuel-bounded helper for `natDigits`; any fuel above the value
itself is enough, so the fuel never runs out in `natDigits`. -/
def natDigitsAux (fuel n : Nat) : List Char :=
  match fuel with
  | 0 => []
  | fuel + 1 =>
    if n < 10 then [Nat.digitChar n]
    else natDigitsAux fuel (n / 10) ++ [Nat.digitChar (n % 10)]

/-- The decimal digit characters of `n`, most significant first. -/
def natDigits (n : Nat) : List Char := natDigitsAux (n + 1) n

theorem natDigitsAux_succ (f n : Nat) :
    natDigitsAux (f + 1) n = if n < 10 then [Nat.digitChar n]
      else natDigitsAux f (n / 10) ++ [Nat.digitChar (n % 10)] := rfl

theorem natDigitsAux_congr : ∀ (f1 : Nat) {f2 n : Nat}, n < f1 → n < f2 →
    natDigitsAux f1 n = natDigitsAux f2 n := by
  intro f1
  induction f1 with
  | zero => omega
  | succ f ih =>
    intro f2 n h1 h2
    cases f2 with
    | zero => omega
    | succ f2 =>
      rw [natDigitsAux_succ, natDigitsAux_succ]
      by_cases h10 : n < 10
      · rw [if_pos h10, if_pos h10]
      · have hlt : n / 10 < n := Nat.div_lt_self (by omega) (by omega)
        rw [if_neg h10, if_neg h10]
        congr 1
        exact ih (by omega) (by omega)

/-- The recursion equation of `natDigits`. -/
theorem natDigits_eq (n : Nat) :
    natDigits n = if n < 10 then [Nat.digitChar n]
      else natDigits (n / 10) ++ [Nat.digitChar (n % 10)] := by
  rw [natDigits, natDigitsAux_succ]
  by_cases h : n < 10
  · rw [if_pos h, if_pos h]
  · have hlt : n / 10 < n := Nat.div_lt_self (by omega) (by omega)
    rw [if_neg h, if_neg h]
    congr 1
    rw [natDigits]
    exact natDigitsAux_congr n (by omega) (by omega)

/-- Numeric value of a digit character. -/
def digitVal (c : Char) : Nat := c.toNat - 48

/-- Value of a digit string, most significant first. -/
def digitsToNat (cs : List Char) : Nat :=
  cs.foldl (fun acc c => 10 * acc + digitVal c) 0

/-- Strict reading of a digit string: `some` exactly when the string is
a nonempty run of decimal digits. -/
def parseNat (cs : List Char) : Option Nat :=
  if cs ≠ [] ∧ cs.all Char.isDigit then some (digitsToNat cs) else none

theorem digitVal_digitChar {d : Nat} (h : d < 10) :
    digitVal (Nat.digitChar d) = d := by
  interval_cases d <;> rfl

theorem isDigit_digitChar {d : Nat} (h : d < 10) :
    (Nat.digitChar d).isDigit = true := by
  interval_cases d <;> rfl

theorem natDigits_ne_nil (n : Nat) : natDigits n ≠ [] := by
  rw [natDigits_eq]
  split <;> simp

theorem natDigits_all_digit (n : Nat) :
    ∀ c ∈ natDigits n, c.isDigit = true := by
  induction n using Nat.strong_induction_on with
  | _ n ih =>
    rw [natDigits_eq]
    split
    · next h => simpa using isDigit_digitChar h
    · next h =>
      intro c hc
      rcases List.mem_append.mp hc with h1 | h1
      · exact ih (n / 10) (Nat.div_lt_self (by omega) (by omega)) c h1
      · have : c = Nat.digitChar (n % 10) := by simpa using h1
        subst this
        exact isDigit_digitChar (Nat.mod_lt _ (by omega))

theorem digitsToNat_append_single (cs : List Char) (c : Char) :
    digitsToNat (cs ++ [c]) = 10 * digitsToNat cs + digitVal c := by
  simp [digitsToNat, List.foldl_append]

theorem digitsToNat_natDigits (n : Nat) : digitsToNat (natDigits n) = n := by
  induction n using Nat.strong_induction_on with
  | _ n ih =>
    rw [natDigits_eq]
    split
    · next h =>
      simp [digitsToNat, digitVal_digitChar h]
    · next h =>
      rw [digitsToNat_append_single,
        ih (n / 10) (Nat.div_lt_self (by omega) (by omega)),
        digitVal_digitChar (Nat.mod_lt _ (by omega))]
      omega

theorem parseNat_natDigits (n : Nat) : parseNat (natDigits n) = some n := by
  rw [parseNat, if_pos, digitsToNat_natDigits]
  exact ⟨natDigits_ne_nil n, List.all_eq_true.mpr (natDigits_all_digit n)⟩

/-- A digit character is none of the separator characters used by the
score notation. -/
theorem digit_ne_seps {c : Char} (h : c.isDigit = true) :
    c ≠ '-' ∧ c ≠ ' ' ∧ c ≠ '(' ∧ c ≠ ')' := by
  refine ⟨?_, ?_, ?_, ?_⟩ <;> rintro rfl <;> simp [Char.isDigit] at h

/-! ### Splitting lemmas

`List.splitOn` is the embedding of JavaScript `split` on a one-character
separator; the two lemmas below specialise Mathlib's `splitOnP` facts to
it. -/

theorem splitOn_of_no_sep {xs : List Char} {c : Char}
    (h : ∀ x ∈ xs, x ≠ c) : xs.splitOn c = [xs] := by
  rw [List.splitOn]
  exact List.splitOnP_eq_single _ _ (fun x hx => by simpa using h x hx)

theorem splitOn_sep_first {xs : List Char} {c : Char}
    (h : ∀ x ∈ xs, x ≠ c) (ys : List Char) :
    (xs ++ c :: ys).splitOn c = xs :: ys.splitOn c := by
  rw [List.splitOn, List.splitOnP_first _ _ (fun x hx => by simpa using h x hx) c (by simp)]
  rfl

theorem natDigits_no_dash (n : Nat) : ∀ x ∈ natDigits n, x ≠ '-' :=
  fun x hx => (digit_ne_seps (natDigits_all_digit n x hx)).1

theorem natDigits_no_space (n : Nat) : ∀ x ∈ natDigits n, x ≠ ' ' :=
  fun x hx => (digit_ne_seps (natDigits_all_digit n x hx)).2.1

theorem natDigits_no_paren (n : Nat) : ∀ x ∈ natDigits n, x ≠ '(' :=
  fun x hx => (digit_ne_seps (natDigits_all_digit n x hx)).2.2.1

/-! ### Slot Outcome Resolver

Modelled from the spec: the backend Slot Outcome Resolver (spec section
4.2) is not among the sources.  Under the default best-of-3 format a
side wins the slot on its second set win; a set is won by the side with
the larger game count (the tiebreak parenthetical is advisory only), and
an empty sequence of sets leaves the slot unresolved. -/

/-- Number of recorded sets won by side 1 (more games than side 2). -/
def setsWonBy1 (sets : List ParsedSet) : Nat :=
  (sets.filter (fun s => s.games2 < s.games1)).length

/-- Number of recorded sets won by side 2. -/
def setsWonBy2 (sets : List ParsedSet) : Nat :=
  (sets.filter (fun s => s.games1 < s.games2)).length

/-- Modelled from the spec: the Slot Outcome Resolver's output, the pair
`(side1_won, side2_won)` under the default best-of-3 format (first to
two set wins; anything less leaves both flags false). -/
def resolveSlot (sets : List ParsedSet) : Bool × Bool :=
  (2 ≤ setsWonBy1 sets, 2 ≤ setsWonBy2 sets)

/-- Erase the advisory tiebreak annotations from a parsed set. -/
def stripTiebreak (s : ParsedSet) : ParsedSet :=
  { s with tb1 := none, tb2 := none }

theorem length_filter_add_length_filter_le {α : Type} (l : List α)
    (p q : α → Bool) (h : ∀ x ∈ l, ¬(p x = true ∧ q x = true)) :
    (l.filter p).length + (l.filter q).length ≤ l.length := by
  induction l with
  | nil => simp
  | cons a l ih =>
    have ha := h a (List.mem_cons_self a l)
    have ih' := ih (fun x hx => h x (List.mem_cons_of_mem a hx))
    by_cases hp : p a = true <;> by_cases hq : q a = true <;>
      simp [List.filter_cons, hp, hq] at * <;> omega

theorem resolveSlot_not_both {sets : List ParsedSet} (h : sets.length ≤ 3) :
    ¬((resolveSlot sets).1 = true ∧ (resolveSlot sets).2 = true) := by
  rintro ⟨h1, h2⟩
  simp [resolveSlot] at h1 h2
  have hle := length_filter_add_length_filter_le sets
    (fun s => s.games2 < s.games1) (fun s => s.games1 < s.games2)
    (fun s _ => by simp; omega)
  rw [setsWonBy1] at h1
  rw [setsWonBy2] at h2
  omega

theorem resolveSlot_ignores_tiebreak (sets : List ParsedSet) :
    resolveSlot (sets.map stripTiebreak) = resolveSlot sets := by
  have key : ∀ p : ParsedSet → Bool, (∀ s, p (stripTiebreak s) = p s) →
      (List.filter p (sets.map stripTiebreak)).length
        = (List.filter p sets).length := by
    intro p hp
    rw [List.filter_map, List.length_map]
    congr 1
    exact List.filter_congr (fun x _ => hp x)
  simp only [resolveSlot, setsWonBy1, setsWonBy2]
  simp only [key (fun s => decide (s.games2 < s.games1)) (fun s => rfl),
    key (fun s => decide (s.games1 < s.games2)) (fun s => rfl)]

theorem resolveSlot_nil : resolveSlot [] = (false, false) := rfl

/-! ### Match Outcome Resolver

Modelled from the spec: the backend Match Outcome Resolver (spec section
4.3) is not among the sources.  Under the default scheme each resolved
slot contributes one point to its winning side (weight one, no clinch
cap), and the side with the larger point total wins the match. -/

/-- Modelled from the spec: the points a single lineup slot contributes
to each side — one point to a side whose won flag is set, nothing from
an unresolved slot. -/
def slotPoints (e : LineupEntry) : Nat × Nat :=
  ((if e.side1_won then 1 else 0), (if e.side2_won then 1 else 0))

/-- Modelled from the spec: the Match Outcome Resolver's `MatchScore`
for a completed match — fold the per-slot point contributions and
declare the side with the larger total the winner. -/
def computeMatchScore (lineup : List LineupEntry) : MatchScore :=
  let pts := lineup.foldl
    (fun acc e => (acc.1 + (slotPoints e).1, acc.2 + (slotPoints e).2)) (0, 0)
  { home_team_score := pts.1
    away_team_score := pts.2
    home_team_won := pts.2 < pts.1
    away_team_won := pts.1 < pts.2 }

theorem foldl_slotPoints (lineup : List LineupEntry) (a b : Nat) :
    lineup.foldl
      (fun acc e => (acc.1 + (slotPoints e).1, acc.2 + (slotPoints e).2)) (a, b)
    = (a + (lineup.filter (fun m => m.side1_won)).length,
       b + (lineup.filter (fun m => m.side2_won)).length) := by
  induction lineup generalizing a b with
  | nil => simp
  | cons e es ih =>
    rw [List.foldl_cons, ih]
    by_cases h1 : e.side1_won <;> by_cases h2 : e.side2_won <;>
      simp [List.filter_cons, h1, h2, slotPoints] <;> omega

theorem computeMatchScore_home (lineup : List LineupEntry) :
    (computeMatchScore lineup).home_team_score
      = (lineup.filter (fun m => m.side1_won)).length := by
  simp only [computeMatchScore, foldl_slotPoints]
  simp

theorem computeMatchScore_away (lineup : List LineupEntry) :
    (computeMatchScore lineup).away_team_score
      = (lineup.filter (fun m => m.side2_won)).length := by
  simp only [computeMatchScore, foldl_slotPoints]
  simp

/-! ### Score renderings of the matches pages

From the sources: the legacy matches page renders the final score by
counting won flags over the lineup, the current matches page renders the
two fields of the `MatchScore` returned by the score endpoint. -/

/-- From the legacy matches page (`src/unnamed/part_002`): the score
text `${lineup.filter(side1_won).length} - ${lineup.filter(side2_won).length}`. -/
def legacyScoreText (lineup : List LineupEntry) : List Char :=
  natDigits (lineup.filter (fun m => m.side1_won)).length
    ++ " - ".toList
    ++ natDigits (lineup.filter (fun m => m.side2_won)).length

/-- From `MatchesPage.js`: the score text
`${score.home_team_score} - ${score.away_team_score}`. -/
def currentScoreText (score : MatchScore) : List Char :=
  natDigits score.home_team_score ++ " - ".toList
    ++ natDigits score.away_team_score

/-- From `MatchesPage.js` (time/score cell of a match row): a completed
match shows the score when one is available and the neutral placeholder
`vs` otherwise; an upcoming match shows its scheduled time text. -/
def scoreCellText (completed : Bool) (score : Option MatchScore)
    (timeText : List Char) : List Char :=
  if completed then
    match score with
    | some s => currentScoreText s
    | none => "vs".toList
  else timeText

/-! ### Score Parser

Modelled from the spec: the backend Score Parser (spec section 4.1) is
not among the sources.  It splits the raw string on whitespace, requires
every token to match `<int>-<int>` optionally followed by `(<int>)`, and
yields the per-set game counts; a token that does not match the pattern
fails the parse (the `MalformedScore` condition, embedded as `none`). -/

/-- Modelled from the spec: parse one set token `<int>-<int>[(<int>)]`
into its pair of game counts; the tiebreak parenthetical is validated
but not retained in the game counts. -/
def parseSetToken (tok : List Char) : Option (Nat × Nat) :=
  match tok.splitOn '-' with
  | [a, rest] =>
    match rest.splitOn '(' with
    | [b] =>
      match parseNat a, parseNat b with
      | some x, some y => some (x, y)
      | _, _ => none
    | [b, t] =>
      if t.getLast? = some ')' ∧ t.dropLast ≠ [] ∧ t.dropLast.all Char.isDigit
      then
        match parseNat a, parseNat b with
        | some x, some y => some (x, y)
        | _, _ => none
      else none
    | _ => none
  | _ => none

/-- Modelled from the spec: parse every whitespace-separated token,
failing if any token is malformed. -/
def parseTokens : List (List Char) → Option (List (Nat × Nat))
  | [] => some []
  | t :: ts =>
    match parseSetToken t, parseTokens ts with
    | some p, some ps => some (p :: ps)
    | _, _ => none

/-- Modelled from the spec: the Score Parser — split on whitespace,
drop empty tokens (an empty string has no sets recorded, which is not an
error), parse each set token. -/
def parseScore (s : List Char) : Option (List (Nat × Nat)) :=
  parseTokens ((s.splitOn ' ').filter (fun t => !t.isEmpty))

/-- Re-serialize per-set game counts, dropping tiebreak annotations:
tokens `<games1>-<games2>` joined by single spaces. -/
def serializeSets (v : List (Nat × Nat)) : List Char :=
  [' '].intercalate (v.map (fun p => natDigits p.1 ++ '-' :: natDigits p.2))

theorem parseSetToken_plain (a b : Nat) :
    parseSetToken (natDigits a ++ '-' :: natDigits b) = some (a, b) := by
  have h1 : (natDigits a ++ '-' :: natDigits b).splitOn '-'
      = [natDigits a, natDigits b] := by
    rw [splitOn_sep_first (natDigits_no_dash a),
      splitOn_of_no_sep (natDigits_no_dash b)]
  have h2 : (natDigits b).splitOn '(' = [natDigits b] :=
    splitOn_of_no_sep (natDigits_no_paren b)
  simp [parseSetToken, h1, h2, parseNat_natDigits]

theorem parseTokens_serialized (v : List (Nat × Nat)) :
    parseTokens (v.map (fun p => natDigits p.1 ++ '-' :: natDigits p.2))
      = some v := by
  induction v with
  | nil => rfl
  | cons p ps ih => simp [parseTokens, parseSetToken_plain, ih]

theorem token_no_space (x y : Nat) :
    ∀ c ∈ natDigits x ++ '-' :: natDigits y, c ≠ ' ' := by
  intro c hc
  rcases List.mem_append.mp hc with h | h
  · exact natDigits_no_space x c h
  · rcases List.mem_cons.mp h with rfl | h
    · decide
    · exact natDigits_no_space y c h

theorem token_ne_nil (x y : Nat) :
    natDigits x ++ '-' :: natDigits y ≠ [] := by
  simp

theorem parseScore_serializeSets (v : List (Nat × Nat)) :
    parseScore (serializeSets v) = some v := by
  cases v with
  | nil => rfl
  | cons p ps =>
    rw [parseScore, serializeSets]
    have hsplit : ([' '].intercalate
          ((p :: ps).map (fun q => natDigits q.1 ++ '-' :: natDigits q.2))).splitOn ' '
        = (p :: ps).map (fun q => natDigits q.1 ++ '-' :: natDigits q.2) := by
      refine List.splitOn_intercalate _ ' ' ?_ (by simp)
      intro l hl
      obtain ⟨q, _, rfl⟩ := List.mem_map.mp hl
      intro hsp
      exact token_no_space q.1 q.2 ' ' hsp rfl
    rw [hsplit]
    have hkeep : ((p :: ps).map
          (fun q => natDigits q.1 ++ '-' :: natDigits q.2)).filter
            (fun t => !t.isEmpty)
        = (p :: ps).map (fun q => natDigits q.1 ++ '-' :: natDigits q.2) := by
      refine List.filter_eq_self.mpr ?_
      intro t ht
      obtain ⟨q, _, rfl⟩ := List.mem_map.mp ht
      simp
    rw [hkeep, parseTokens_serialized]

/-! ### Lineup rendering of the match details page

Straight from `MatchDetailsPage.js`: the per-set game-count extraction
(`set.split("-")[0]` and `set.split("-")[1].split("(")[0]`), the
singles and doubles renderings built from it, the UF tag condition, and
the lineup grouping. -/

/-- From `MatchDetailsPage.js`: side 1's games of one set token,
`set.split("-")[0]`. -/
def setTokenSide1 (tok : List Char) : List Char :=
  (tok.splitOn '-').headD []

/-- From `MatchDetailsPage.js`: side 2's games of one set token with the
tiebreak parenthetical stripped, `set.split("-")[1].split("(")[0]`. -/
def setTokenSide2 (tok : List Char) : List Char :=
  ((((tok.splitOn '-').getD 1 []).splitOn '(')).headD []

/-- From `MatchDetailsPage.js` (singles section, home player row):
`side1_score.split(" ").map(set => set.split("-")[0])`. -/
def singlesSide1Display (side1_score : List Char) : List (List Char) :=
  (side1_score.splitOn ' ').map setTokenSide1

/-- From `MatchDetailsPage.js` (singles section, away player row):
`side1_score.split(" ").map(set => set.split("-")[1].split("(")[0])`. -/
def singlesSide2Display (side1_score : List Char) : List (List Char) :=
  (side1_score.splitOn ' ').map setTokenSide2

/-- From `MatchDetailsPage.js` (doubles section, home pair row):
`side1_score.split(" ")[0].split("-")[0]`. -/
def doublesSide1Display (e : LineupEntry) : List Char :=
  setTokenSide1 ((e.side1_score.splitOn ' ').headD [])

/-- From `MatchDetailsPage.js` (doubles section, away pair row):
`side1_score.split(" ")[0].split("-")[1].split("(")[0]`. -/
def doublesSide2Display (e : LineupEntry) : List Char :=
  setTokenSide2 ((e.side1_score.splitOn ' ').headD [])

/-- From `MatchDetailsPage.js`: the UF tag is rendered for an entry
exactly under `!match.side1_won && !match.side2_won`. -/
def showsUFTag (e : LineupEntry) : Bool :=
  !e.side1_won && !e.side2_won

/-- From `MatchDetailsPage.js`:
`lineup.filter(m => m.match_type === "DOUBLES").sort((a, b) => a.position - b.position)`. -/
def doublesMatches (lineup : List LineupEntry) : List LineupEntry :=
  (lineup.filter (fun m => m.match_type == "DOUBLES".toList)).mergeSort
    (fun a b => a.position ≤ b.position)

/-- From `MatchDetailsPage.js`:
`lineup.filter(m => m.match_type === "SINGLES").sort((a, b) => a.position - b.position)`. -/
def singlesMatches (lineup : List LineupEntry) : List LineupEntry :=
  (lineup.filter (fun m => m.match_type == "SINGLES".toList)).mergeSort
    (fun a b => a.position ≤ b.position)

/-! ### Team details page and API client -/

/-- From `TeamsDetailsPage.js` (result badge text): the match is
labelled `W` for the viewed team when the nested conditional picks a set
won flag — `home_team_id === team.id ? home_team_won : away_team_won`. -/
def resultLabelIsWin (teamId : List Char) (m : DualMatch)
    (s : MatchScore) : Bool :=
  if m.home_team_id == teamId then s.home_team_won else s.away_team_won

/-- From `TeamsDetailsPage.js` (result badge colour): green border
exactly when
`(home_team_id === team.id && home_team_won) || (away_team_id === team.id && away_team_won)`. -/
def resultBorderGreen (teamId : List Char) (m : DualMatch)
    (s : MatchScore) : Bool :=
  (m.home_team_id == teamId && s.home_team_won)
    || (m.away_team_id == teamId && s.away_team_won)

/-- The outcome of an HTTP fetch of the score endpoint as seen by the
client: status flag and, when ok, the decoded `MatchScore` body. -/
structure ScoreResponse where
  ok : Bool
  body : MatchScore
deriving DecidableEq, Repr

/-- From `services/api.js` (`matches.getScore`): throw on a non-ok
response, otherwise return the decoded body — no third outcome. -/
def getScore (r : ScoreResponse) : Except (List Char) MatchScore :=
  if r.ok then Except.ok r.body
  else Except.error "Failed to fetch match score".toList

/-- A data dependency of the match details page: either a request to a
named endpoint, or a value resolved locally without any request. -/
inductive FetchPlan (α : Type) where
  | request : List Char → FetchPlan α
  | resolved : α → FetchPlan α
deriving DecidableEq

/-- The endpoints a `FetchPlan` contacts. -/
def FetchPlan.requests {α : Type} : FetchPlan α → List (List Char)
  | .request e => [e]
  | .resolved _ => []

/-- From `MatchDetailsPage.js` (`fetchMatchDetails`): the lineup is
requested only for a completed match, otherwise `Promise.resolve([])`. -/
def lineupFetch (completed : Bool) : FetchPlan (List LineupEntry) :=
  if completed then .request "getLineup".toList else .resolved []

/-- From `MatchDetailsPage.js` (`fetchMatchDetails`): the score is
requested only for a completed match, otherwise `Promise.resolve(null)`. -/
def scoreFetch (completed : Bool) : FetchPlan (Option MatchScore) :=
  if completed then .request "getScore".toList else .resolved none

/-! ### Token helper lemmas -/

theorem tie_chars {tie : List Char}
    (h : tie = [] ∨ ∃ t : Nat, tie = '(' :: (natDigits t ++ [')'])) :
    ∀ x ∈ tie, x ≠ '-' ∧ x ≠ ' ' := by
  rcases h with rfl | ⟨t, rfl⟩
  · simp
  · intro x hx
    rcases List.mem_cons.mp hx with rfl | hx
    · exact ⟨by decide, by decide⟩
    · rcases List.mem_append.mp hx with hx | hx
      · have hd := natDigits_all_digit t x hx
        exact ⟨(digit_ne_seps hd).1, (digit_ne_seps hd).2.1⟩
      · have hx' : x = ')' := by simpa using hx
        subst hx'
        exact ⟨by decide, by decide⟩

theorem splitOn_dash_token (a b : Nat) {tie : List Char}
    (h : tie = [] ∨ ∃ t : Nat, tie = '(' :: (natDigits t ++ [')'])) :
    (natDigits a ++ '-' :: (natDigits b ++ tie)).splitOn '-'
      = [natDigits a, natDigits b ++ tie] := by
  rw [splitOn_sep_first (natDigits_no_dash a)]
  rw [splitOn_of_no_sep]
  intro x hx
  rcases List.mem_append.mp hx with hx | hx
  · exact natDigits_no_dash b x hx
  · exact (tie_chars h x hx).1

theorem setTokenSide1_token (a b : Nat) {tie : List Char}
    (h : tie = [] ∨ ∃ t : Nat, tie = '(' :: (natDigits t ++ [')'])) :
    setTokenSide1 (natDigits a ++ '-' :: (natDigits b ++ tie)) = natDigits a := by
  rw [setTokenSide1, splitOn_dash_token a b h]
  rfl

theorem setTokenSide2_token (a b : Nat) {tie : List Char}
    (h : tie = [] ∨ ∃ t : Nat, tie = '(' :: (natDigits t ++ [')'])) :
    setTokenSide2 (natDigits a ++ '-' :: (natDigits b ++ tie)) = natDigits b := by
  rw [setTokenSide2, splitOn_dash_token a b h]
  show ((natDigits b ++ tie).splitOn '(').headD [] = natDigits b
  rcases h with rfl | ⟨t, rfl⟩
  · rw [List.append_nil, splitOn_of_no_sep (natDigits_no_paren b)]
    rfl
  · rw [splitOn_sep_first (natDigits_no_paren b)]
    rfl

theorem token_no_space_tie (a b : Nat) {tie : List Char}
    (h : tie = [] ∨ ∃ t : Nat, tie = '(' :: (natDigits t ++ [')'])) :
    ∀ c ∈ natDigits a ++ '-' :: (natDigits b ++ tie), c ≠ ' ' := by
  intro c hc
  rcases List.mem_append.mp hc with hc | hc
  · exact natDigits_no_space a c hc
  · rcases List.mem_cons.mp hc with rfl | hc
    · decide
    · rcases List.mem_append.mp hc with hc | hc
      · exact natDigits_no_space b c hc
      · exact (tie_chars h c hc).2

/-! ### Sorting helper lemmas -/

theorem pairwise_le_mergeSort (l : List LineupEntry) :
    (l.mergeSort (fun a b => a.position ≤ b.position)).Pairwise
      (fun a b => a.position ≤ b.position) := by
  refine List.Pairwise.imp (fun h => of_decide_eq_true h)
    (List.sorted_mergeSort (fun a b c h1 h2 => ?_) (fun a b => ?_) l)
  · simp only [decide_eq_true_eq] at h1 h2 ⊢
    omega
  · simp only [Bool.or_eq_true, decide_eq_true_eq]
    omega

theorem pairwise_lt_of_nodup (l : List LineupEntry)
    (hle : l.Pairwise (fun a b => a.position ≤ b.position))
    (hn : (l.map (fun e => e.position)).Nodup) :
    l.Pairwise (fun a b => a.position < b.position) := by
  have hne : l.Pairwise (fun a b => a.position ≠ b.position) :=
    List.pairwise_map.mp hn
  exact (hle.and hne).imp (fun h => lt_of_le_of_ne h.1 h.2)

theorem nodup_positions_sorted (l : List LineupEntry)
    (hn : (l.map (fun e => e.position)).Nodup) :
    ((l.mergeSort (fun a b => a.position ≤ b.position)).map
      (fun e => e.position)).Nodup :=
  (((List.mergeSort_perm l _).map _).symm).nodup hn

theorem length_filter_add_eq_filter_or {α : Type} (l : List α)
    (p q : α → Bool) (h : ∀ x ∈ l, ¬(p x = true ∧ q x = true)) :
    (l.filter p).length + (l.filter q).length
      = (l.filter (fun x => p x || q x)).length := by
  induction l with
  | nil => simp
  | cons a l ih =>
    have ha := h a (List.mem_cons_self a l)
    have ih' := ih (fun x hx => h x (List.mem_cons_of_mem a hx))
    by_cases hp : p a = true <;> by_cases hq : q a = true <;>
      simp [List.filter_cons, hp, hq] at * <;> omega

/-! ### Claims -/

/-- C1: for every lineup slot resolved by the engine (best-of-3, at
most three recorded sets) at most one of `side1_won`/`side2_won` is
true — the unresolved "UF" state is exactly both flags false — and the
match details page renders the UF tag for an entry if and only if both
flags are false. -/
theorem claim1_won_flags_exclusive_and_uf_tag :
    (∀ sets : List ParsedSet, sets.length ≤ 3 →
      ¬((resolveSlot sets).1 = true ∧ (resolveSlot sets).2 = true)) ∧
    (∀ e : LineupEntry,
      showsUFTag e = true ↔ (e.side1_won = false ∧ e.side2_won = false)) := by
  constructor
  · intro sets h
    exact resolveSlot_not_both h
  · intro e
    cases h1 : e.side1_won <;> cases h2 : e.side2_won <;>
      simp [showsUFTag, h1, h2]

/-- C1 witness: the slot `6-4 3-6 7-6(4)` does not have both won flags
set, and an entry with both flags false shows the UF tag. -/
theorem claim1_witness :
    ¬((resolveSlot [⟨6, 4, none, none⟩, ⟨3, 6, none, none⟩,
        ⟨7, 6, none, some 4⟩]).1 = true
      ∧ (resolveSlot [⟨6, 4, none, none⟩, ⟨3, 6, none, none⟩,
        ⟨7, 6, none, some 4⟩]).2 = true)
    ∧ (showsUFTag ⟨1, "SINGLES".toList, 3, false, false, [], []⟩ = true
      ↔ ((false : Bool) = false ∧ (false : Bool) = false)) :=
  ⟨claim1_won_flags_exclusive_and_uf_tag.1 _ (by decide),
    claim1_won_flags_exclusive_and_uf_tag.2 _⟩

/-- C2: under the one-point-per-resolved-slot scheme the computed
`MatchScore` point totals are exactly the counts of lineup entries with
each won flag set, so the legacy matches page (counting won flags over
the lineup) and the current matches page (reading the `MatchScore`
fields) render the same final score text. -/
theorem claim2_legacy_and_current_score_agree :
    ∀ lineup : List LineupEntry,
      (computeMatchScore lineup).home_team_score
          = (lineup.filter (fun m => m.side1_won)).length
      ∧ (computeMatchScore lineup).away_team_score
          = (lineup.filter (fun m => m.side2_won)).length
      ∧ legacyScoreText lineup = currentScoreText (computeMatchScore lineup) := by
  intro lineup
  refine ⟨computeMatchScore_home lineup, computeMatchScore_away lineup, ?_⟩
  rw [legacyScoreText, currentScoreText, computeMatchScore_home,
    computeMatchScore_away]

/-- C3: for a lineup satisfying the won-flag invariant the two point
totals sum to the number of resolved slots; an entry with both flags
false contributes zero points, and an empty score string parses to no
sets, which the resolver leaves unresolved. -/
theorem claim3_score_sum_counts_resolved_slots :
    (∀ lineup : List LineupEntry,
      (∀ e ∈ lineup, ¬(e.side1_won = true ∧ e.side2_won = true)) →
      (computeMatchScore lineup).home_team_score
          + (computeMatchScore lineup).away_team_score
        = (lineup.filter (fun e => e.side1_won || e.side2_won)).length)
    ∧ (∀ e : LineupEntry, e.side1_won = false → e.side2_won = false →
        slotPoints e = (0, 0))
    ∧ parseScore "".toList = some []
    ∧ resolveSlot [] = (false, false) := by
  refine ⟨?_, ?_, rfl, rfl⟩
  · intro lineup hinv
    rw [computeMatchScore_home, computeMatchScore_away]
    exact length_filter_add_eq_filter_or lineup _ _ hinv
  · intro e h1 h2
    simp [slotPoints, h1, h2]

/-- C3 witness: a lineup with one slot won by each side and one
unresolved slot has score sum 2, the number of resolved slots. -/
theorem claim3_witness :
    (computeMatchScore
        [⟨1, "DOUBLES".toList, 1, true, false, "6-4".toList, []⟩,
         ⟨2, "SINGLES".toList, 1, false, true, "4-6".toList, []⟩,
         ⟨3, "SINGLES".toList, 2, false, false, [], []⟩]).home_team_score
      + (computeMatchScore
        [⟨1, "DOUBLES".toList, 1, true, false, "6-4".toList, []⟩,
         ⟨2, "SINGLES".toList, 1, false, true, "4-6".toList, []⟩,
         ⟨3, "SINGLES".toList, 2, false, false, [], []⟩]).away_team_score
      = (([⟨1, "DOUBLES".toList, 1, true, false, "6-4".toList, []⟩,
         ⟨2, "SINGLES".toList, 1, false, true, "4-6".toList, []⟩,
         ⟨3, "SINGLES".toList, 2, false, false, [], []⟩] :
          List LineupEntry).filter
            (fun e => e.side1_won || e.side2_won)).length :=
  claim3_score_sum_counts_resolved_slots.1 _ (by decide)

/-- C4: for a set token `<int>-<int>` optionally followed by
`(<int>)`, the rendered game counts are exactly the digit strings of the
two integers — the tiebreak parenthetical is stripped from the side-2
games — and the slot resolver's outcome is unchanged when tiebreak
annotations are erased, so the parenthetical never decides a set or the
slot. -/
theorem claim4_set_token_games_and_tiebreak_ignored :
    (∀ (a b : Nat) (tie : List Char),
      (tie = [] ∨ ∃ t : Nat, tie = '(' :: (natDigits t ++ [')'])) →
      setTokenSide1 (natDigits a ++ '-' :: (natDigits b ++ tie)) = natDigits a
      ∧ setTokenSide2 (natDigits a ++ '-' :: (natDigits b ++ tie))
        = natDigits b)
    ∧ (∀ sets : List ParsedSet,
        resolveSlot (sets.map stripTiebreak) = resolveSlot sets) := by
  constructor
  · intro a b tie htie
    exact ⟨setTokenSide1_token a b htie, setTokenSide2_token a b htie⟩
  · exact resolveSlot_ignores_tiebreak

/-- C4 witness: the token `7-6(4)` renders as games `7` and `6`. -/
theorem claim4_witness :
    setTokenSide1 (natDigits 7 ++ '-' :: (natDigits 6
        ++ ('(' :: (natDigits 4 ++ [')'])))) = natDigits 7
    ∧ setTokenSide2 (natDigits 7 ++ '-' :: (natDigits 6
        ++ ('(' :: (natDigits 4 ++ [')'])))) = natDigits 6 :=
  claim4_set_token_games_and_tiebreak_ignored.1 7 6 _ (Or.inr ⟨4, rfl⟩)

/-- C5: for a match of the viewed team (the team is the home side or
the away side, decided by comparing the stored team ids), the team
details page labels the match a win exactly when the team's side's won
flag is set — equivalently, the nested label conditional agrees with
the border-colour disjunction — and the computed `MatchScore` never
sets both won flags. -/
theorem claim5_team_win_loss_labelling :
    (∀ (teamId : List Char) (m : DualMatch) (s : MatchScore),
      ((m.home_team_id = teamId ∧ m.away_team_id ≠ teamId)
        ∨ (m.home_team_id ≠ teamId ∧ m.away_team_id = teamId)) →
      (resultLabelIsWin teamId m s = true ↔
        ((m.home_team_id = teamId ∧ s.home_team_won = true)
          ∨ (m.away_team_id = teamId ∧ s.away_team_won = true)))
      ∧ resultLabelIsWin teamId m s = resultBorderGreen teamId m s)
    ∧ (∀ lineup : List LineupEntry,
        ¬((computeMatchScore lineup).home_team_won = true
          ∧ (computeMatchScore lineup).away_team_won = true)) := by
  constructor
  · rintro t m s (⟨h1, h2⟩ | ⟨h1, h2⟩)
    · constructor
      · simp [resultLabelIsWin, h1, h2]
      · simp [resultLabelIsWin, resultBorderGreen, h1, h2]
    · constructor
      · simp [resultLabelIsWin, h1, h2]
      · simp [resultLabelIsWin, resultBorderGreen, h1, h2]
  · intro lineup
    rintro ⟨h1, h2⟩
    simp [computeMatchScore] at h1 h2
    omega

/-- C5 witness: a home match with `home_team_won` set is labelled a
win for the home team, and the label agrees with the border colour. -/
theorem claim5_witness :
    (resultLabelIsWin "team-a".toList
        ⟨1, "team-a".toList, "team-b".toList, true, false⟩
        ⟨4, 3, true, false⟩ = true ↔
      (("team-a".toList = "team-a".toList ∧ (true : Bool) = true)
        ∨ ("team-b".toList = "team-a".toList ∧ (false : Bool) = true)))
    ∧ resultLabelIsWin "team-a".toList
        ⟨1, "team-a".toList, "team-b".toList, true, false⟩
        ⟨4, 3, true, false⟩
      = resultBorderGreen "team-a".toList
        ⟨1, "team-a".toList, "team-b".toList, true, false⟩
        ⟨4, 3, true, false⟩ :=
  claim5_team_win_loss_labelling.1 "team-a".toList
    ⟨1, "team-a".toList, "team-b".toList, true, false⟩
    ⟨4, 3, true, false⟩ (by decide)

/-- C6: the match details page displays the lineup partitioned into the
DOUBLES group and the SINGLES group — each group holding exactly the
lineup entries of that discipline — with each group ordered by
nondecreasing position, strictly ascending whenever that group's own
positions are distinct (positions may repeat across the two groups, as
they do in a standard dual lineup). -/
theorem claim6_lineup_grouped_and_ordered :
    ∀ lineup : List LineupEntry,
      (∀ e : LineupEntry, e ∈ doublesMatches lineup ↔
        (e ∈ lineup ∧ e.match_type = "DOUBLES".toList))
      ∧ (∀ e : LineupEntry, e ∈ singlesMatches lineup ↔
        (e ∈ lineup ∧ e.match_type = "SINGLES".toList))
      ∧ (doublesMatches lineup).Pairwise (fun a b => a.position ≤ b.position)
      ∧ (singlesMatches lineup).Pairwise (fun a b => a.position ≤ b.position)
      ∧ (((lineup.filter (fun m => m.match_type == "DOUBLES".toList)).map
            (fun e => e.position)).Nodup →
          (doublesMatches lineup).Pairwise
            (fun a b => a.position < b.position))
      ∧ (((lineup.filter (fun m => m.match_type == "SINGLES".toList)).map
            (fun e => e.position)).Nodup →
          (singlesMatches lineup).Pairwise
            (fun a b => a.position < b.position)) := by
  intro lineup
  refine ⟨?_, ?_, pairwise_le_mergeSort _, pairwise_le_mergeSort _, ?_, ?_⟩
  · intro e
    simp [doublesMatches]
  · intro e
    simp [singlesMatches]
  · intro hn
    exact pairwise_lt_of_nodup _ (pairwise_le_mergeSort _)
      (nodup_positions_sorted _ hn)
  · intro hn
    exact pairwise_lt_of_nodup _ (pairwise_le_mergeSort _)
      (nodup_positions_sorted _ hn)

/-- C6 witness: a lineup whose doubles group and singles group both use
positions 1 and 2 — so positions repeat across groups, as in a standard
dual lineup — is displayed with strictly ascending positions in each
group. -/
theorem claim6_witness :
    (doublesMatches
        [⟨1, "DOUBLES".toList, 2, true, false, [], []⟩,
         ⟨2, "DOUBLES".toList, 1, false, true, [], []⟩,
         ⟨3, "SINGLES".toList, 1, true, false, [], []⟩,
         ⟨4, "SINGLES".toList, 2, false, true, [], []⟩]).Pairwise
      (fun a b => a.position < b.position)
    ∧ (singlesMatches
        [⟨1, "DOUBLES".toList, 2, true, false, [], []⟩,
         ⟨2, "DOUBLES".toList, 1, false, true, [], []⟩,
         ⟨3, "SINGLES".toList, 1, true, false, [], []⟩,
         ⟨4, "SINGLES".toList, 2, false, true, [], []⟩]).Pairwise
      (fun a b => a.position < b.position) :=
  ⟨(claim6_lineup_grouped_and_ordered
      [⟨1, "DOUBLES".toList, 2, true, false, [], []⟩,
       ⟨2, "DOUBLES".toList, 1, false, true, [], []⟩,
       ⟨3, "SINGLES".toList, 1, true, false, [], []⟩,
       ⟨4, "SINGLES".toList, 2, false, true, [], []⟩]).2.2.2.2.1 (by decide),
    (claim6_lineup_grouped_and_ordered
      [⟨1, "DOUBLES".toList, 2, true, false, [], []⟩,
       ⟨2, "DOUBLES".toList, 1, false, true, [], []⟩,
       ⟨3, "SINGLES".toList, 1, true, false, [], []⟩,
       ⟨4, "SINGLES".toList, 2, false, true, [], []⟩]).2.2.2.2.2 (by decide)⟩

/-- C7: the score endpoint client either returns the decoded
`MatchScore` or throws the fetch error — there is no third outcome —
and a completed match with no score value renders the neutral
placeholder `vs` rather than a fabricated score. -/
theorem claim7_get_score_two_outcomes :
    (∀ r : ScoreResponse,
      (r.ok = true → getScore r = Except.ok r.body)
      ∧ (r.ok = false →
          getScore r = Except.error "Failed to fetch match score".toList)
      ∧ ((∃ s, getScore r = Except.ok s)
          ∨ (∃ msg, getScore r = Except.error msg)))
    ∧ (∀ timeText : List Char, scoreCellText true none timeText = "vs".toList) := by
  constructor
  · intro r
    refine ⟨fun h => ?_, fun h => ?_, ?_⟩
    · simp [getScore, h]
    · simp [getScore, h]
    · cases h : r.ok
      · exact Or.inr ⟨"Failed to fetch match score".toList, by simp [getScore, h]⟩
      · exact Or.inl ⟨r.body, by simp [getScore, h]⟩
  · intro timeText
    rfl

/-- C7 witness: a non-ok response makes the client throw the fetch
error. -/
theorem claim7_witness :
    getScore ⟨false, ⟨0, 0, false, false⟩⟩
      = Except.error "Failed to fetch match score".toList :=
  ((claim7_get_score_two_outcomes.1 ⟨false, ⟨0, 0, false, false⟩⟩).2.1) rfl

/-- C8: parsing a valid score string into per-set game counts and
re-serializing those game counts (dropping tiebreak annotations) is
idempotent — parsing the re-serialized string yields the same game
counts. -/
theorem claim8_parse_serialize_idempotent :
    ∀ (s : List Char) (v : List (Nat × Nat)),
      parseScore s = some v → parseScore (serializeSets v) = some v := by
  intro s v _
  exact parseScore_serializeSets v

/-- C8 witness: `6-4 3-6 7-6(4)` parses to `[(6,4),(3,6),(7,6)]`, and
re-serializing (to `6-4 3-6 7-6`) parses back to the same counts. -/
theorem claim8_witness :
    parseScore (serializeSets [(6, 4), (3, 6), (7, 6)])
      = some [(6, 4), (3, 6), (7, 6)] :=
  claim8_parse_serialize_idempotent "6-4 3-6 7-6(4)".toList
    [(6, 4), (3, 6), (7, 6)] (by decide)

/-- C9: the doubles rows of the match details page derive both
displayed game counts solely from the first whitespace-separated token
of the entry's `side1_score` — entries agreeing on that token display
identically whatever their other fields — and on a digit token the
displayed games are the digits before the dash and the digits after it
with the parenthetical stripped, regardless of the remaining tokens. -/
theorem claim9_doubles_display_first_token_only :
    (∀ e1 e2 : LineupEntry,
      (e1.side1_score.splitOn ' ').headD []
          = (e2.side1_score.splitOn ' ').headD [] →
      doublesSide1Display e1 = doublesSide1Display e2
      ∧ doublesSide2Display e1 = doublesSide2Display e2)
    ∧ (∀ (a b : Nat) (tie rest : List Char) (e : LineupEntry),
      (tie = [] ∨ ∃ t : Nat, tie = '(' :: (natDigits t ++ [')'])) →
      e.side1_score
          = (natDigits a ++ '-' :: (natDigits b ++ tie)) ++ ' ' :: rest →
      doublesSide1Display e = natDigits a
      ∧ doublesSide2Display e = natDigits b) := by
  constructor
  · intro e1 e2 h
    rw [doublesSide1Display, doublesSide2Display, h,
      doublesSide1Display, doublesSide2Display]
    exact ⟨rfl, rfl⟩
  · intro a b tie rest e htie hs
    have hfirst : (e.side1_score.splitOn ' ').headD []
        = natDigits a ++ '-' :: (natDigits b ++ tie) := by
      rw [hs, splitOn_sep_first (token_no_space_tie a b htie)]
      rfl
    constructor
    · rw [doublesSide1Display, hfirst, setTokenSide1_token a b htie]
    · rw [doublesSide2Display, hfirst, setTokenSide2_token a b htie]

/-- C9 witness: an entry whose `side1_score` is `7-6(4) 0-6 ...` with a
differing `side2_score` displays doubles games `7` and `6`, taken from
the first token only. -/
theorem claim9_witness :
    doublesSide1Display
        ⟨1, "DOUBLES".toList, 1, true, false,
          (natDigits 7 ++ '-' :: (natDigits 6
            ++ ('(' :: (natDigits 4 ++ [')'])))) ++ ' ' :: "0-6".toList,
          "9-9".toList⟩ = natDigits 7
    ∧ doublesSide2Display
        ⟨1, "DOUBLES".toList, 1, true, false,
          (natDigits 7 ++ '-' :: (natDigits 6
            ++ ('(' :: (natDigits 4 ++ [')'])))) ++ ' ' :: "0-6".toList,
          "9-9".toList⟩ = natDigits 6 :=
  claim9_doubles_display_first_token_only.2 7 6 _ "0-6".toList _
    (Or.inr ⟨4, rfl⟩) rfl

/-- C10: for a match whose `completed` flag is false the match details
page issues no lineup or score request — the lineup resolves locally to
the empty sequence and the score to null — and conversely any lineup or
score request implies the match was completed. -/
theorem claim10_fetch_only_when_completed :
    (∀ completed : Bool, completed = false →
      lineupFetch completed = FetchPlan.resolved []
      ∧ scoreFetch completed = FetchPlan.resolved none
      ∧ (lineupFetch completed).requests = []
      ∧ (scoreFetch completed).requests = [])
    ∧ (∀ c : Bool,
        ((lineupFetch c).requests ≠ [] ∨ (scoreFetch c).requests ≠ []) →
        c = true) := by
  constructor
  · rintro c rfl
    exact ⟨rfl, rfl, rfl, rfl⟩
  · intro c h
    cases c
    · rcases h with h | h <;> exact absurd rfl h
    · rfl

/-- C10 witness: an uncompleted match resolves the lineup to `[]` and
the score to `null` with no endpoint request. -/
theorem claim10_witness :
    lineupFetch false = FetchPlan.resolved []
    ∧ scoreFetch false = FetchPlan.resolved none
    ∧ (lineupFetch false).requests = []
    ∧ (scoreFetch false).requests = [] :=
  claim10_fetch_only_when_completed.1 false rfl
